import Mathlib

/-!
Verification development for the `dx` display-linked dataframe cache and
resample engine.

The Python sources under `dx/formatters/dx.py`, `dx/formatters/dataresource.py`,
`dx/comms/assignment.py`, `dx/comms/resample.py` and `dx/types/dex_metadata.py`
are embedded shallowly below.  Dataframes are modelled as a list of named
integer columns in row-major form; display identifiers (UUID strings in the
source) are modelled as naturals minted from a counter; the process-wide
mutable dictionaries of `dx/utils/tracking.py` are gathered into an explicit
`LinkState` record that every operation threads.  Components whose module is
not part of the provided sources (`dx/utils/tracking.py`, `dx/sampling.py`,
`dx/filtering.py`, `dx/types/filters.py`) are modelled from the design
document; each such definition carries a doc comment saying so.
-/

namespace DxSpec

/-- A tabular value after the `to_dataframe` conversion boundary: named
columns over integer cells, row-major, with a default positional index
(the index column itself is implicit, i.e. positional). -/
structure Df where
  cols : List String
  rows : List (List Int)
deriving Repr, DecidableEq

def Df.rowCount (df : Df) : Nat := df.rows.length

def Df.colCount (df : Df) : Nat := df.cols.length

/-- One step of a simple polynomial accumulator used by the fingerprint. -/
def hashStep (a v : Nat) : Nat := a * 1000003 + v + 1

/-- Numeric code of a string, used by the fingerprint. -/
def strCode (s : String) : Nat := s.data.foldl (fun a c => hashStep a c.toNat) 7

/-- Numeric code of an integer cell, used by the fingerprint. -/
def intCode (i : Int) : Nat := 2 * i.natAbs + (if i < 0 then 1 else 0)

/-- Modelled from the spec: `generate_df_hash` (in `dx/utils/tracking.py`,
not among the provided sources) computes a deterministic content hash over
column names, ordered cell values and dtypes of a tabular value (spec 4.1). -/
def generate_df_hash (df : Df) : Nat :=
  let colH := df.cols.foldl (fun a c => hashStep a (strCode c)) 3
  df.rows.foldl (fun a r => r.foldl (fun b v => hashStep b (intCode v)) (hashStep a 11)) colH

/-- Modelled from the spec: `normalize_index_and_columns` (in
`dx/utils/formatting.py`, not among the provided sources) rewrites the index
to a canonical positional form and flattens/stringifies column values.  On
the `Df` model, whose index is already implicit and positional and whose
columns are plain strings, this normalization is the identity. -/
def normalize_index_and_columns (df : Df) : Df := df

/-- The subset of `dx/settings.py` settings the embedded operations consult.
`RENDERABLE_OBJECTS` holds runtime type tags (source: a set of types). -/
structure Settings where
  ENABLE_DATALINK : Bool := true
  DISPLAY_MAX_ROWS : Nat := 100000
  DISPLAY_MAX_COLUMNS : Nat := 50
  RENDERABLE_OBJECTS : List String := ["DataFrame", "Series"]
deriving Repr, DecidableEq

/-- Modelled from the spec: the Dimension Sampler (`dx/sampling.py`, not among
the provided sources).  Rows beyond the limit are reduced to an evenly spaced
deterministic subsequence; columns beyond the limit are truncated to the
first `DISPLAY_MAX_COLUMNS` (spec 4.2). -/
def sample_if_too_big (s : Settings) (df : Df) : Df :=
  let rows :=
    if df.rows.length ≤ s.DISPLAY_MAX_ROWS then df.rows
    else
      let step := df.rows.length / s.DISPLAY_MAX_ROWS + 1
      ((df.rows.enum.filter (fun p => p.1 % step = 0)).map Prod.snd).take s.DISPLAY_MAX_ROWS
  if df.cols.length ≤ s.DISPLAY_MAX_COLUMNS then { df with rows := rows }
  else
    { cols := df.cols.take s.DISPLAY_MAX_COLUMNS
      rows := rows.map (fun r => r.take s.DISPLAY_MAX_COLUMNS) }

/-- `get_df_dimensions`: original or truncated (row, column) counts. -/
def get_df_dimensions (df : Df) : Nat × Nat := (df.rows.length, df.cols.length)

/-- Filter clause operators (spec 3, Filter Clause). -/
inductive FilterOp
  | eq | ne | gt | gte | lt | lte | between | contains | isin
deriving Repr, DecidableEq

/-- A structured filter clause over an integer column (spec 3). -/
structure Clause where
  column : String
  op : FilterOp
  values : List Int
deriving Repr, DecidableEq

/-- One registry record: content fingerprint, display identifier and the
derived store table name (spec 3, Display Record). -/
structure RegEntry where
  fingerprint : Nat
  display_id : Nat
  table_name : Nat
deriving Repr, DecidableEq

/-- The process-wide mutable state of `dx/utils/tracking.py` and friends,
gathered into one record: the fingerprint registry
(`SUBSET_TO_DATAFRAME_HASH` / `DATAFRAME_HASH_TO_DISPLAY_ID`), the uuid mint
(modelled as a counter), the sqlite table store, the metadata caches
(`DISPLAY_ID_TO_ORIG_METADATA`, `DISPLAY_ID_TO_METADATA`,
`LAST_DATARESOURCE_SENT`), the `SUBSET_FILTERS` map and the type ledger. -/
structure LinkState where
  registry : List RegEntry
  counter : Nat
  store : List (Nat × Df)
  origMetadataIds : List Nat
  metadataIds : List Nat
  lastSent : List (Nat × Bool)
  subsetFilters : List (Nat × List Clause)
  ledger : List (Nat × List String)
deriving Repr, DecidableEq

/-- Registry lookup by content fingerprint. -/
def lookupByHash (reg : List RegEntry) (h : Nat) : Option RegEntry :=
  reg.find? (fun e => e.fingerprint == h)

/-- Registry lookup by display identifier. -/
def lookupByDisplayId (reg : List RegEntry) (d : Nat) : Option RegEntry :=
  reg.find? (fun e => e.display_id == d)

/-- Observable effects of a render: the payload display call, the placeholder
HTML display call, and the sqlite persistence write. -/
inductive Event
  | emitPayload (display_id : Nat) (update : Bool)
  | emitHtml (display_id : Nat) (update : Bool)
  | persist (table_name : Nat)
deriving Repr, DecidableEq

/-- Modelled from the spec: `get_display_id` (in `dx/utils/tracking.py`, not
among the provided sources) resolves a fingerprint to its registered display
identifier, or mints a fresh one when the fingerprint is unknown
(spec 4.5, `resolve_or_register`). -/
def get_display_id (st : LinkState) (h : Nat) : Nat :=
  match lookupByHash st.registry h with
  | some e => e.display_id
  | none => st.counter

/-- Modelled from the spec: `register_display_id` (in `dx/utils/tracking.py`,
not among the provided sources) records fingerprint, display identifier and
a table name derived deterministically from the fingerprint, and returns the
table name for the subsequent store write (spec 4.4, 4.5). -/
def register_display_id (st : LinkState) (display_id h : Nat) : LinkState × Nat :=
  let table := h
  ({ st with
      registry := ⟨h, display_id, table⟩ :: st.registry
      counter := st.counter + 1 },
    table)

/-- Modelled from the spec: `store_in_sqlite` (in `dx/utils/tracking.py`, not
among the provided sources) persists the full dataset under the derived table
name with whole-table create/replace semantics (spec 4.4). -/
def store_in_sqlite (store : List (Nat × Df)) (table : Nat) (df : Df) : List (Nat × Df) :=
  (table, df) :: store.filter (fun p => p.1 != table)

/-- Modelled from the spec: `track_column_conversions` records the
pre-normalization column types for a display; first write wins (spec 4.3). -/
def track_column_conversions (st : LinkState) (display_id : Nat) (dtypes : List String) :
    LinkState :=
  if (st.ledger.find? (fun p => p.1 == display_id)).isSome then st
  else { st with ledger := (display_id, dtypes) :: st.ledger }

/-- The `application/vnd.dex.v1+json` payload body built by
`generate_dx_body`: table schema field names, column-major data including the
positional index column, and the datalink display identifier. -/
structure DxBody where
  schema : List String
  data : List (List Int)
  datalinkDisplayId : Option Nat
deriving Repr, DecidableEq

/-- `generate_dx_body` (dx.py): schema plus transposed (column-major) values,
the positional index column first. -/
def generate_dx_body (df : Df) (display_id : Option Nat) : DxBody :=
  { schema := "index" :: df.cols
    data := ((List.range df.rows.length).map Int.ofNat) :: df.rows.transpose
    datalinkDisplayId := display_id }

/-- The datalink metadata attached to a render (dx.py / formatting.py). -/
structure DxMetadata where
  display_id : Option Nat
  applied_filters : List Clause
  default_index_used : Bool
  origDims : Nat × Nat
  truncatedDims : Nat × Nat
deriving Repr, DecidableEq

/-- `format_dx` (dx.py): mint a display id when none is given, measure the
original dimensions, sample, build body and metadata, record the original
metadata once per display id, and emit the payload (plus, with datalink on,
the placeholder HTML) to the frontend. -/
def format_dx (s : Settings) (st : LinkState) (df : Df) (update : Bool)
    (displayId? : Option Nat) (filters : Option (List Clause)) (hasDefaultIndex : Bool) :
    (DxBody × DxMetadata) × LinkState × List Event :=
  let minted := match displayId? with
    | some d => (d, st)
    | none => (st.counter, { st with counter := st.counter + 1 })
  let display_id := minted.1
  let st1 := minted.2
  let origDims := get_df_dimensions df
  let sampled := sample_if_too_big s df
  let truncDims := get_df_dimensions sampled
  let payload := generate_dx_body sampled (some display_id)
  let meta : DxMetadata :=
    { display_id := some display_id
      applied_filters := filters.getD []
      default_index_used := hasDefaultIndex
      origDims := origDims
      truncatedDims := truncDims }
  let st2 :=
    if display_id ∈ st1.origMetadataIds then st1
    else { st1 with origMetadataIds := display_id :: st1.origMetadataIds }
  let events :=
    Event.emitPayload display_id update ::
      (if s.ENABLE_DATALINK then [Event.emitHtml display_id update] else [])
  ((payload, meta), st2, events)

/-- `handle_dx_format` (dx.py): with datalink off, plain formatting; with
datalink on, fingerprint the normalized frame, decide new-vs-update from the
registry, register and derive a table name when new, record column
conversions, format/emit, and only afterwards persist new data to sqlite. -/
def handle_dx_format (s : Settings) (st : LinkState) (df : Df) :
    (DxBody × DxMetadata) × LinkState × List Event :=
  let default_index_used := true
  if !s.ENABLE_DATALINK then
    let obj := normalize_index_and_columns df
    format_dx s st obj false none none default_index_used
  else
    let obj := normalize_index_and_columns df
    let obj_hash := generate_df_hash obj
    let update_existing_display := (lookupByHash st.registry obj_hash).isSome
    let applied_filters := (st.subsetFilters.find? (fun p => p.1 == obj_hash)).map Prod.snd
    let display_id := get_display_id st obj_hash
    let reg :=
      if update_existing_display then (st, 0)
      else register_display_id st display_id obj_hash
    let st1 := reg.1
    let sqlite_df_table := reg.2
    let st2 := track_column_conversions st1 display_id (obj.cols.map (fun _ => "int64"))
    let fmt := format_dx s st2 obj update_existing_display (some display_id)
      applied_filters default_index_used
    let pm := fmt.1
    let st3 := fmt.2.1
    let events := fmt.2.2
    if update_existing_display then (pm, st3, events)
    else
      (pm, { st3 with store := store_in_sqlite st3.store sqlite_df_table obj },
        events ++ [Event.persist sqlite_df_table])

/-- Modelled from the spec: `DXDataFrameCache` (in `dx/utils/tracking.py`, not
among the provided sources) wraps an incoming frame with its normalized form,
content fingerprint, resolved display identifier and derived sql table name,
registering the fingerprint when it was not yet known (spec 4.5,
`resolve_or_register`).  The returned flag records whether the fingerprint was
already known before this render, which is what the
`dfc.hash in SUBSET_TO_DATAFRAME_HASH` membership test in
`handle_dataresource_format` reports (spec 4.5, `is_update`). -/
structure DXDataFrameCache where
  df : Df
  hash : Nat
  display_id : Nat
  sql_table : Nat
deriving Repr, DecidableEq

def DXDataFrameCache.make (st : LinkState) (obj : Df) :
    DXDataFrameCache × LinkState × Bool :=
  let df := normalize_index_and_columns obj
  let h := generate_df_hash df
  match lookupByHash st.registry h with
  | some e => (⟨df, h, e.display_id, e.table_name⟩, st, true)
  | none =>
      let d := st.counter
      let reg := register_display_id st d h
      (⟨df, h, d, reg.2⟩, reg.1, false)

/-- The `application/vnd.dataresource+json` payload body built by
`generate_dataresource_body`: schema field names plus row-major records
including the positional index. -/
structure DataResourceBody where
  schema : List String
  data : List (List Int)
  datalinkDisplayId : Option Nat
deriving Repr, DecidableEq

/-- `generate_dataresource_body` (dataresource.py): schema plus row records,
each row carrying its positional index value first. -/
def generate_dataresource_body (df : Df) (display_id : Option Nat) : DataResourceBody :=
  { schema := "index" :: df.cols
    data := df.rows.enum.map (fun p => (Int.ofNat p.1) :: p.2)
    datalinkDisplayId := display_id }

/-- `format_dataresource` (dataresource.py): mint a display id when none is
given, measure, sample, build body and metadata, record metadata once per
display id, remember the last payload sent per display id, and emit payload
plus placeholder HTML. -/
def format_dataresource (s : Settings) (st : LinkState) (df : Df) (update : Bool)
    (displayId? : Option Nat) (hasDefaultIndex : Bool) :
    (DataResourceBody × DxMetadata) × LinkState × List Event :=
  let minted := match displayId? with
    | some d => (d, st)
    | none => (st.counter, { st with counter := st.counter + 1 })
  let display_id := minted.1
  let st1 := minted.2
  let origDims := get_df_dimensions df
  let sampled := sample_if_too_big s df
  let truncDims := get_df_dimensions sampled
  let payload := generate_dataresource_body sampled (some display_id)
  let meta : DxMetadata :=
    { display_id := some display_id
      applied_filters := []
      default_index_used := hasDefaultIndex
      origDims := origDims
      truncatedDims := truncDims }
  let st2 :=
    if display_id ∈ st1.metadataIds then st1
    else { st1 with metadataIds := display_id :: st1.metadataIds }
  let st3 :=
    { st2 with lastSent := (display_id, update) :: st2.lastSent.filter (fun p => p.1 != display_id) }
  let events := [Event.emitPayload display_id update, Event.emitHtml display_id update]
  ((payload, meta), st3, events)

/-- `handle_dataresource_format` (dataresource.py): with datalink off, plain
formatting; with datalink on, wrap the frame in a `DXDataFrameCache`, decide
new-vs-update from the registry, format/emit, and only afterwards persist new
data to sqlite. -/
def handle_dataresource_format (s : Settings) (st : LinkState) (obj : Df) :
    (DataResourceBody × DxMetadata) × LinkState × List Event :=
  let default_index_used := true
  if !s.ENABLE_DATALINK then
    let o := normalize_index_and_columns obj
    format_dataresource s st o false none default_index_used
  else
    let made := DXDataFrameCache.make st obj
    let dfc := made.1
    let st1 := made.2.1
    let update_existing_display := made.2.2
    let fmt := format_dataresource s st1 dfc.df update_existing_display (some dfc.display_id)
      default_index_used
    let pm := fmt.1
    let st2 := fmt.2.1
    let events := fmt.2.2
    if update_existing_display then (pm, st2, events)
    else
      (pm, { st2 with store := store_in_sqlite st2.store dfc.sql_table dfc.df },
        events ++ [Event.persist dfc.sql_table])

/-- A DEX view (dex_metadata.py, `DEXView`): the fields relevant to view
bookkeeping; remaining chart/decoration kwargs are carried opaquely. -/
structure DEXView where
  chart_mode : String := "grid"
  display_id : Nat := 0
  is_comment : Bool := false
  is_default : Bool := false
  is_transitory : Bool := false
  variable_name : Option String := none
deriving Repr, DecidableEq

/-- The DEX metadata record (dex_metadata.py, `DEXMetadata`): the fields
relevant to view bookkeeping. -/
structure DEXMetadata where
  simple_table : Bool := false
  views : List DEXView := []
deriving Repr, DecidableEq

/-- `DEXMetadata.add_view` (dex_metadata.py): pop `is_default` from the
kwargs (defaulting to false), force it to true when no views exist yet,
build the view and append it. -/
def DEXMetadata.add_view (m : DEXMetadata) (is_default : Bool) (kwargs : DEXView) :
    DEXMetadata :=
  let d := if m.views.isEmpty then true else is_default
  { m with views := m.views ++ [{ kwargs with is_default := d }] }

/-- An arbitrary displayed object: a runtime type tag plus, for tabular
objects, the dataframe conversion of its content. -/
structure PyObj where
  ty : String
  df : Df
deriving Repr, DecidableEq

/-- `DXDisplayFormatter.format` (dx.py): objects whose type is among
`settings.RENDERABLE_OBJECTS` are handled by side effect (`handle_dx_format`)
and the formatter protocol receives the empty payload/metadata pair; all
other objects are delegated to the default IPython display formatter. -/
def DXDisplayFormatter.format (s : Settings)
    (defaultFormat : PyObj → List (String × String) × List (String × String))
    (st : LinkState) (obj : PyObj) :
    (List (String × String) × List (String × String)) × LinkState × List Event :=
  if obj.ty ∈ s.RENDERABLE_OBJECTS then
    let r := handle_dx_format s st obj.df
    (([], []), r.2.1, r.2.2)
  else
    (defaultFormat obj, st, [])

/-- `DXDataResourceDisplayFormatter.format` (dataresource.py): same protocol
as `DXDisplayFormatter.format`, delegating to `handle_dataresource_format`. -/
def DXDataResourceDisplayFormatter.format (s : Settings)
    (defaultFormat : PyObj → List (String × String) × List (String × String))
    (st : LinkState) (obj : PyObj) :
    (List (String × String) × List (String × String)) × LinkState × List Event :=
  if obj.ty ∈ s.RENDERABLE_OBJECTS then
    let r := handle_dataresource_format s st obj.df
    (([], []), r.2.1, r.2.2)
  else
    (defaultFormat obj, st, [])

/-- The payload display calls of a run: (display_id, update) pairs. -/
def payloadEmits (events : List Event) : List (Nat × Bool) :=
  events.filterMap fun e =>
    match e with
    | Event.emitPayload d u => some (d, u)
    | _ => none

/-- The persistence writes of a run. -/
def persistEvents (events : List Event) : List Nat :=
  events.filterMap fun e =>
    match e with
    | Event.persist t => some t
    | _ => none

/-- The empty process state: nothing registered, nothing stored. -/
def emptyState : LinkState :=
  { registry := []
    counter := 0
    store := []
    origMetadataIds := []
    metadataIds := []
    lastSent := []
    subsetFilters := []
    ledger := [] }

/-- A small concrete frame used by witnesses. -/
def dfA : Df := { cols := ["a"], rows := [[1], [2]] }

/-- A state whose registry already holds the fingerprint of `dfA`. -/
def knownState : LinkState :=
  { emptyState with
      registry := [⟨generate_df_hash dfA, 7, generate_df_hash dfA⟩] }

/-- A concrete default formatter used by the C10 witness. -/
def plainFormat (o : PyObj) : List (String × String) × List (String × String) :=
  ([("text/plain", o.ty)], [])

/-- Decimal value of a digit character. -/
def digitVal (c : Char) : Nat := c.toNat - 48

/-- Decimal value of a digit string (most significant first). -/
def digitsVal (l : List Char) : Nat := l.foldl (fun a c => 10 * a + digitVal c) 0

/-- The suffixed candidate name `name_k` tried by `check_variable_name`. -/
def suffixedName (name : String) (k : Nat) : String := name ++ "_" ++ Nat.repr k

/-- The `while` loop of `check_variable_name` (assignment.py), with explicit
fuel: starting at suffix `k`, return the first suffix whose candidate name is
unbound.  Fuel `names.length + 1` always suffices (`exists_free_suffix`). -/
def findSuffix (names : List String) (name : String) : Nat → Nat → Nat
  | 0, k => k
  | fuel + 1, k =>
      if suffixedName name k ∈ names then findSuffix names name fuel (k + 1) else k

/-- `check_variable_name` (assignment.py): if the requested name is already
bound in the user namespace, append the first free numeric suffix `_1`, `_2`,
…; otherwise use the name as-is. -/
def check_variable_name (variable_name : String) (names : List String) : String :=
  if variable_name ∈ names then
    suffixedName variable_name (findSuffix names variable_name (names.length + 1) 1)
  else variable_name

/-- Evaluation of one filter clause against a row (spec 4.6): resolve the
column, then apply the operator.  `contains` is a substring match on string
columns; in the integer-cell model it never holds. -/
def evalClause (cols : List String) (row : List Int) (c : Clause) : Bool :=
  match (cols.indexOf? c.column).bind row.get? with
  | none => false
  | some v =>
      match c.op, c.values with
      | FilterOp.eq, [a] => v == a
      | FilterOp.ne, [a] => v != a
      | FilterOp.gt, [a] => a < v
      | FilterOp.gte, [a] => a ≤ v
      | FilterOp.lt, [a] => v < a
      | FilterOp.lte, [a] => v ≤ a
      | FilterOp.between, [a, b] => a ≤ v && v ≤ b
      | FilterOp.isin, vs => vs.contains v
      | _, _ => false

/-- Modelled from the spec: the Filter Compiler predicate (spec 4.6) —
clauses combine with AND; the empty clause list compiles to the always-true
predicate. -/
def compilePredicate (cols : List String) (cs : List Clause) (row : List Int) : Bool :=
  cs.all (evalClause cols row)

/-- SQL text of one filter clause (spec 4.6 operator table). -/
def clauseSql (c : Clause) : String :=
  let vals := String.intercalate ", " (c.values.map (fun v => toString v))
  let first := (c.values.headD 0)
  match c.op with
  | FilterOp.eq => c.column ++ " = " ++ toString first
  | FilterOp.ne => c.column ++ " != " ++ toString first
  | FilterOp.gt => c.column ++ " > " ++ toString first
  | FilterOp.gte => c.column ++ " >= " ++ toString first
  | FilterOp.lt => c.column ++ " < " ++ toString first
  | FilterOp.lte => c.column ++ " <= " ++ toString first
  | FilterOp.between =>
      c.column ++ " BETWEEN " ++ toString first ++ " AND " ++
        toString (c.values.getD 1 0)
  | FilterOp.contains => c.column ++ " LIKE " ++ vals
  | FilterOp.isin => c.column ++ " IN (" ++ vals ++ ")"

/-- Modelled from the spec: `DEXFilterSettings.to_sql_query`
(`dx/types/filters.py`, not among the provided sources) joins the per-clause
SQL with AND (spec 4.6). -/
def to_sql_query (cs : List Clause) : String :=
  String.intercalate " AND " (cs.map clauseSql)

/-- The `sql_filter` string built by `handle_assignment_comm`
(assignment.py): a plain row-limited select when no filters are given,
otherwise a conjunctive WHERE clause followed by the row limit. -/
def build_sql_filter (filters : List Clause) (sample_size : Nat) : String :=
  let sql_filter := "SELECT * FROM {table_name} LIMIT " ++ Nat.repr sample_size
  if filters.isEmpty then sql_filter
  else
    "SELECT * FROM {table_name} WHERE " ++ to_sql_query filters ++ " LIMIT " ++
      Nat.repr sample_size

/-- A value inside an inbound comm message: a string, a number, or a list of
filter clauses. -/
inductive MsgVal
  | s (v : String)
  | n (v : Nat)
  | fs (v : List Clause)
deriving Repr, DecidableEq

/-- The `content.data` dictionary of an inbound comm message; `none` models a
message whose content or data key is missing. -/
structure CommMsg where
  content : Option (List (String × MsgVal))
deriving Repr, DecidableEq

/-- `msg.get("content", {}).get("data", {})`. -/
def dataOf (m : CommMsg) : List (String × MsgVal) := m.content.getD []

/-- Dictionary lookup inside a message payload. -/
def lookupData (d : List (String × MsgVal)) (k : String) : Option MsgVal :=
  (d.find? (fun p => p.1 == k)).map Prod.snd

/-- The Python exceptions the embedded handlers can raise. -/
inductive PyErr
  | keyError (k : String)
  | typeError (what : String)
  | unknownDisplay (display_id : Nat)
  | storage (table_name : Nat)
deriving Repr, DecidableEq

/-- `str(e)` for an embedded exception. -/
def errString : PyErr → String
  | PyErr.keyError k => "KeyError: " ++ k
  | PyErr.typeError w => "ValidationError: " ++ w
  | PyErr.unknownDisplay d => "UnknownDisplayError: " ++ Nat.repr d
  | PyErr.storage t => "StorageError: " ++ Nat.repr t

/-- `traceback.format_exc()` for an embedded exception. -/
def tracebackOf (e : PyErr) : String :=
  "Traceback (most recent call last): " ++ errString e

/-- Modelled from the spec: `resample_from_db` (`dx/filtering.py`, not among
the provided sources) resolves the display id in the registry (unknown ids
are reported, never silently empty), reads the table from the store, applies
the compiled conjunctive predicate and the row limit (spec 4.7). -/
def resample_from_db (st : LinkState) (display_id : Nat) (filters : List Clause)
    (sample_size : Nat) : Except PyErr Df :=
  match lookupByDisplayId st.registry display_id with
  | none => Except.error (PyErr.unknownDisplay display_id)
  | some e =>
      match st.store.find? (fun p => p.1 == e.table_name) with
      | none => Except.error (PyErr.storage e.table_name)
      | some p =>
          Except.ok
            { cols := p.2.cols
              rows := (p.2.rows.filter (compilePredicate p.2.cols filters)).take sample_size }

/-- Modelled from the spec: `handle_resample` (`dx/filtering.py`, not among
the provided sources) resamples and re-displays the result on the existing
display id (spec 4.7). -/
def handle_resample (st : LinkState) (display_id : Nat) (filters : List Clause)
    (sample_size : Nat) : Except PyErr (LinkState × List Event) :=
  match resample_from_db st display_id filters sample_size with
  | Except.error e => Except.error e
  | Except.ok _ => Except.ok (st, [Event.emitPayload display_id true])

/-- Modelled from the spec: `DEXResampleMessage.parse_obj`
(`dx/types/filters.py`, not among the provided sources): validates the data
dictionary into (display_id, filters, sample_size), with the default sample
size when the key is absent; ill-typed fields raise a validation error. -/
def parse_resample_msg (d : List (String × MsgVal)) :
    Except PyErr (Nat × List Clause × Nat) :=
  match lookupData d "display_id", lookupData d "filters" with
  | some (MsgVal.n did), some (MsgVal.fs fs) =>
      match lookupData d "sample_size" with
      | some (MsgVal.n sz) => Except.ok (did, fs, sz)
      | none => Except.ok (did, fs, 50000)
      | some _ => Except.error (PyErr.typeError "DEXResampleMessage.sample_size")
  | _, _ => Except.error (PyErr.typeError "DEXResampleMessage")

/-- `handle_resample_comm` (resample.py): empty data returns immediately;
with both required keys present the message is parsed and handed to
`handle_resample`; otherwise nothing happens. -/
def handle_resample_comm (st : LinkState) (msg : CommMsg) :
    Except PyErr (LinkState × List Event) :=
  let data := dataOf msg
  if data.isEmpty then Except.ok (st, [])
  else
    if (lookupData data "display_id").isSome && (lookupData data "filters").isSome then
      match parse_resample_msg data with
      | Except.error e => Except.error e
      | Except.ok q => handle_resample st q.1 q.2.1 q.2.2
    else Except.ok (st, [])

/-- The `_recv` callback registered by `resampler` (resample.py): any
exception from `handle_resample_comm` is caught and converted into an error
envelope sent over the comm; nothing propagates to the host. -/
def resampler_recv (st : LinkState) (msg : CommMsg) :
    LinkState × List Event × List (List (String × String)) :=
  match handle_resample_comm st msg with
  | Except.ok r => (r.1, r.2, [])
  | Except.error e =>
      (st, [],
        [[("status", "error"), ("source", "resampler"), ("error", errString e),
          ("traceback", tracebackOf e)]])

/-- `comm_log` (assignment.py): sends `{"msg": msg}` over the comm (and logs
it). -/
def comm_log (msg : String) : List (String × String) := [("msg", msg)]

/-- Rendering of a message payload value into log text. -/
def msgValRepr : MsgVal → String
  | MsgVal.s v => v
  | MsgVal.n v => Nat.repr v
  | MsgVal.fs v => Nat.repr v.length ++ " filters"

/-- The `f"{msg}"` rendering used by the received-message log line. -/
def msgRepr (m : CommMsg) : String :=
  String.intercalate ", " ((dataOf m).map (fun p => p.1 ++ ": " ++ msgValRepr p.2))

/-- Lookup in the user namespace (a Python dict name → value). -/
def nsLookup (user_ns : List (String × Df)) (k : String) : Option Df :=
  (user_ns.find? (fun p => p.1 == k)).map Prod.snd

/-- Assignment into the user namespace: replace an existing binding or
append a new one (Python dict item assignment). -/
def nsSet (user_ns : List (String × Df)) (k : String) (v : Df) : List (String × Df) :=
  if user_ns.any (fun p => p.1 == k) then
    user_ns.map (fun p => if p.1 == k then (k, v) else p)
  else user_ns ++ [(k, v)]

/-- The log text sent when a resampled frame is bound into the namespace. -/
def assignLogText (rowCount : Nat) (free_variable_name : String) : String :=
  "assigning " ++ Nat.repr rowCount ++ "-row dataframe to `" ++
    free_variable_name ++ "` in the user namespace"

/-- The body of the keyed branch of `handle_assignment_comm`
(assignment.py): read `filters` and `sample_size` (a missing key raises
KeyError), build the sql filter string, resample from the store, pick a free
variable name and bind the result, reporting the success log message. -/
def assignment_core (st : LinkState) (user_ns : List (String × Df))
    (data : List (String × MsgVal)) :
    Except PyErr (List (String × Df) × List (String × String)) :=
  match lookupData data "filters" with
  | none => Except.error (PyErr.keyError "filters")
  | some (MsgVal.fs filters) =>
      match lookupData data "sample_size" with
      | none => Except.error (PyErr.keyError "sample_size")
      | some (MsgVal.n sample_size) =>
          let sql_filter := build_sql_filter filters sample_size
          match lookupData data "display_id" with
          | some (MsgVal.n display_id) =>
              match resample_from_db st display_id filters sample_size with
              | Except.error e => Except.error e
              | Except.ok sampled_df =>
                  match lookupData data "variable_name" with
                  | some (MsgVal.s variable_name) =>
                      let free := check_variable_name variable_name (user_ns.map Prod.fst)
                      let _ := sql_filter
                      Except.ok (nsSet user_ns free sampled_df,
                        comm_log (assignLogText sampled_df.rows.length free))
                  | _ => Except.error (PyErr.typeError "variable_name")
          | _ => Except.error (PyErr.typeError "display_id")
      | some _ => Except.error (PyErr.typeError "sample_size")
  | some _ => Except.error (PyErr.typeError "filters")

/-- The observable outcome of one `handle_assignment_comm` call: the user
namespace afterwards, the envelopes sent over the comm, and the exception
that escaped the handler, if any (the assignment comm has no try/except). -/
structure AssignmentResult where
  user_ns : List (String × Df)
  sent : List (List (String × String))
  raised : Option PyErr
deriving Repr, DecidableEq

/-- `handle_assignment_comm` (assignment.py): log receipt, return on empty
data, and when both `display_id` and `variable_name` are present run the
assignment body; its exceptions escape uncaught. -/
def handle_assignment_comm (st : LinkState) (user_ns : List (String × Df))
    (msg : CommMsg) : AssignmentResult :=
  let sent0 := [comm_log ("assignment comm received: " ++ msgRepr msg)]
  let data := dataOf msg
  if data.isEmpty then { user_ns := user_ns, sent := sent0, raised := none }
  else
    if (lookupData data "display_id").isSome &&
        (lookupData data "variable_name").isSome then
      match assignment_core st user_ns data with
      | Except.ok r => { user_ns := r.1, sent := sent0 ++ [r.2], raised := none }
      | Except.error e => { user_ns := user_ns, sent := sent0, raised := some e }
    else { user_ns := user_ns, sent := sent0, raised := none }

/-- Namespace keys used by the C4 witness: `x` and `x_1` already bound. -/
def nsW : List (String × Df) := [("x", dfA), ("x_1", dfA)]

/-- A tiny stored table used by comm witnesses. -/
def dfB : Df := { cols := ["age"], rows := [[3], [4]] }

/-- A state with one registered display (id 5) whose table is in the store. -/
def stC : LinkState :=
  { emptyState with
      registry := [⟨99, 5, 1⟩]
      store := [(1, dfB)] }

/-- A well-formed assignment request against display 5. -/
def msgC : CommMsg :=
  ⟨some [("display_id", MsgVal.n 5), ("variable_name", MsgVal.s "x"),
    ("filters", MsgVal.fs []), ("sample_size", MsgVal.n 10)]⟩

/-- A resample request for an unknown display id. -/
def msgU : CommMsg :=
  ⟨some [("display_id", MsgVal.n 5), ("filters", MsgVal.fs [])]⟩

theorem format_dx_events (s : Settings) (st : LinkState) (df : Df) (u : Bool) (d : Nat)
    (f : Option (List Clause)) (hd : Bool) (hdl : s.ENABLE_DATALINK = true) :
    (format_dx s st df u (some d) f hd).2.2 =
      [Event.emitPayload d u, Event.emitHtml d u] := by
  simp [format_dx, hdl]

theorem format_dx_registry (s : Settings) (st : LinkState) (df : Df) (u : Bool)
    (d? : Option Nat) (f : Option (List Clause)) (hd : Bool) :
    (format_dx s st df u d? f hd).2.1.registry = st.registry := by
  rcases d? <;> simp only [format_dx] <;> split <;> rfl

theorem format_dx_store (s : Settings) (st : LinkState) (df : Df) (u : Bool)
    (d? : Option Nat) (f : Option (List Clause)) (hd : Bool) :
    (format_dx s st df u d? f hd).2.1.store = st.store := by
  rcases d? <;> simp only [format_dx] <;> split <;> rfl

theorem track_column_conversions_registry (st : LinkState) (d : Nat) (dt : List String) :
    (track_column_conversions st d dt).registry = st.registry := by
  simp only [track_column_conversions]; split <;> rfl

theorem track_column_conversions_store (st : LinkState) (d : Nat) (dt : List String) :
    (track_column_conversions st d dt).store = st.store := by
  simp only [track_column_conversions]; split <;> rfl

/-- With datalink on, the events of a dx render: payload then placeholder,
tagged with the resolved display id and the known-fingerprint flag, followed
by a persistence write exactly when the fingerprint was new. -/
theorem handle_dx_format_events (s : Settings) (st : LinkState) (df : Df)
    (hdl : s.ENABLE_DATALINK = true) :
    (handle_dx_format s st df).2.2 =
      [Event.emitPayload (get_display_id st (generate_df_hash df))
          ((lookupByHash st.registry (generate_df_hash df)).isSome),
        Event.emitHtml (get_display_id st (generate_df_hash df))
          ((lookupByHash st.registry (generate_df_hash df)).isSome)] ++
      (if (lookupByHash st.registry (generate_df_hash df)).isSome then []
        else [Event.persist (generate_df_hash df)]) := by
  cases hl : lookupByHash st.registry (generate_df_hash df) with
  | some e =>
      simp [handle_dx_format, hdl, hl, normalize_index_and_columns, format_dx_events]
  | none =>
      simp [handle_dx_format, hdl, hl, normalize_index_and_columns, format_dx_events,
        register_display_id, get_display_id]

/-- With datalink on, the registry after a dx render: unchanged for a known
fingerprint, extended with the fresh record for a new one. -/
theorem handle_dx_format_registry (s : Settings) (st : LinkState) (df : Df)
    (hdl : s.ENABLE_DATALINK = true) :
    (handle_dx_format s st df).2.1.registry =
      (match lookupByHash st.registry (generate_df_hash df) with
        | some _ => st.registry
        | none =>
            RegEntry.mk (generate_df_hash df) st.counter (generate_df_hash df) ::
              st.registry) := by
  cases hl : lookupByHash st.registry (generate_df_hash df) with
  | some e =>
      simp [handle_dx_format, hdl, hl, normalize_index_and_columns,
        format_dx_registry, track_column_conversions_registry]
  | none =>
      simp [handle_dx_format, hdl, hl, normalize_index_and_columns,
        format_dx_registry, track_column_conversions_registry, register_display_id,
        get_display_id]

/-- With datalink on, the store after a dx render: unchanged for a known
fingerprint, holding the new table for a new one. -/
theorem handle_dx_format_store (s : Settings) (st : LinkState) (df : Df)
    (hdl : s.ENABLE_DATALINK = true) :
    (handle_dx_format s st df).2.1.store =
      (match lookupByHash st.registry (generate_df_hash df) with
        | some _ => st.store
        | none => store_in_sqlite st.store (generate_df_hash df) df) := by
  cases hl : lookupByHash st.registry (generate_df_hash df) with
  | some e =>
      simp [handle_dx_format, hdl, hl, normalize_index_and_columns,
        format_dx_store, track_column_conversions_store]
  | none =>
      simp [handle_dx_format, hdl, hl, normalize_index_and_columns,
        format_dx_store, track_column_conversions_store, register_display_id,
        get_display_id]

theorem format_dataresource_events (s : Settings) (st : LinkState) (df : Df) (u : Bool)
    (d : Nat) (hd : Bool) :
    (format_dataresource s st df u (some d) hd).2.2 =
      [Event.emitPayload d u, Event.emitHtml d u] := by
  simp [format_dataresource]

theorem format_dataresource_registry (s : Settings) (st : LinkState) (df : Df) (u : Bool)
    (d? : Option Nat) (hd : Bool) :
    (format_dataresource s st df u d? hd).2.1.registry = st.registry := by
  rcases d? <;> simp only [format_dataresource] <;> split <;> rfl

theorem format_dataresource_store (s : Settings) (st : LinkState) (df : Df) (u : Bool)
    (d? : Option Nat) (hd : Bool) :
    (format_dataresource s st df u d? hd).2.1.store = st.store := by
  rcases d? <;> simp only [format_dataresource] <;> split <;> rfl

/-- With datalink on, the events of a dataresource render, in the same shape
as `handle_dx_format_events`. -/
theorem handle_dataresource_format_events (s : Settings) (st : LinkState) (df : Df)
    (hdl : s.ENABLE_DATALINK = true) :
    (handle_dataresource_format s st df).2.2 =
      [Event.emitPayload (get_display_id st (generate_df_hash df))
          ((lookupByHash st.registry (generate_df_hash df)).isSome),
        Event.emitHtml (get_display_id st (generate_df_hash df))
          ((lookupByHash st.registry (generate_df_hash df)).isSome)] ++
      (if (lookupByHash st.registry (generate_df_hash df)).isSome then []
        else [Event.persist (generate_df_hash df)]) := by
  cases hl : lookupByHash st.registry (generate_df_hash df) with
  | some e =>
      simp [handle_dataresource_format, DXDataFrameCache.make, hdl, hl,
        normalize_index_and_columns, format_dataresource_events, get_display_id]
  | none =>
      simp [handle_dataresource_format, DXDataFrameCache.make, hdl, hl,
        normalize_index_and_columns, format_dataresource_events, get_display_id,
        register_display_id]

theorem handle_dataresource_format_registry (s : Settings) (st : LinkState) (df : Df)
    (hdl : s.ENABLE_DATALINK = true) :
    (handle_dataresource_format s st df).2.1.registry =
      (match lookupByHash st.registry (generate_df_hash df) with
        | some _ => st.registry
        | none =>
            RegEntry.mk (generate_df_hash df) st.counter (generate_df_hash df) ::
              st.registry) := by
  cases hl : lookupByHash st.registry (generate_df_hash df) with
  | some e =>
      simp [handle_dataresource_format, DXDataFrameCache.make, hdl, hl,
        normalize_index_and_columns, format_dataresource_registry]
  | none =>
      simp [handle_dataresource_format, DXDataFrameCache.make, hdl, hl,
        normalize_index_and_columns, format_dataresource_registry, register_display_id,
        get_display_id]

theorem handle_dataresource_format_store (s : Settings) (st : LinkState) (df : Df)
    (hdl : s.ENABLE_DATALINK = true) :
    (handle_dataresource_format s st df).2.1.store =
      (match lookupByHash st.registry (generate_df_hash df) with
        | some _ => st.store
        | none => store_in_sqlite st.store (generate_df_hash df) df) := by
  cases hl : lookupByHash st.registry (generate_df_hash df) with
  | some e =>
      simp [handle_dataresource_format, DXDataFrameCache.make, hdl, hl,
        normalize_index_and_columns, format_dataresource_store]
  | none =>
      simp [handle_dataresource_format, DXDataFrameCache.make, hdl, hl,
        normalize_index_and_columns, format_dataresource_store, register_display_id,
        get_display_id]

/-- C1: registration is idempotent — rendering the same content twice emits
the same display id both times, with the update flag reporting exactly
whether the fingerprint was already registered (hence false on a first
registration and true on the second render); this holds for both the dx and
the dataresource handlers. -/
theorem claim_C1 (s : Settings) (st : LinkState) (df : Df)
    (hdl : s.ENABLE_DATALINK = true) :
    (∃ d u,
      payloadEmits (handle_dx_format s st df).2.2 = [(d, u)] ∧
      u = (lookupByHash st.registry
        (generate_df_hash (normalize_index_and_columns df))).isSome ∧
      payloadEmits (handle_dx_format s (handle_dx_format s st df).2.1 df).2.2 =
        [(d, true)]) ∧
    (∃ d u,
      payloadEmits (handle_dataresource_format s st df).2.2 = [(d, u)] ∧
      u = (lookupByHash st.registry
        (generate_df_hash (normalize_index_and_columns df))).isSome ∧
      payloadEmits
        (handle_dataresource_format s (handle_dataresource_format s st df).2.1 df).2.2 =
        [(d, true)]) := by
  constructor
  · refine ⟨get_display_id st (generate_df_hash df),
      (lookupByHash st.registry (generate_df_hash df)).isSome, ?_, ?_, ?_⟩
    · rw [handle_dx_format_events s st df hdl]
      cases hl : lookupByHash st.registry (generate_df_hash df) <;> simp [hl, payloadEmits]
    · simp [normalize_index_and_columns]
    · have hreg := handle_dx_format_registry s st df hdl
      rw [handle_dx_format_events s _ df hdl]
      cases hl : lookupByHash st.registry (generate_df_hash df) with
      | some e =>
          rw [hl] at hreg
          simp only [get_display_id, hreg]
          simp [hl, payloadEmits]
      | none =>
          rw [hl] at hreg
          simp only [get_display_id, hreg, hl]
          simp [payloadEmits, lookupByHash, List.find?]
  · refine ⟨get_display_id st (generate_df_hash df),
      (lookupByHash st.registry (generate_df_hash df)).isSome, ?_, ?_, ?_⟩
    · rw [handle_dataresource_format_events s st df hdl]
      cases hl : lookupByHash st.registry (generate_df_hash df) <;> simp [hl, payloadEmits]
    · simp [normalize_index_and_columns]
    · have hreg := handle_dataresource_format_registry s st df hdl
      rw [handle_dataresource_format_events s _ df hdl]
      cases hl : lookupByHash st.registry (generate_df_hash df) with
      | some e =>
          rw [hl] at hreg
          simp only [get_display_id, hreg]
          simp [hl, payloadEmits]
      | none =>
          rw [hl] at hreg
          simp only [get_display_id, hreg, hl]
          simp [payloadEmits, lookupByHash, List.find?]

/-- C1 witness: the idempotent-registration theorem applied to the empty
state, datalink on, on a small concrete frame. -/
theorem claim_C1_witness :
    (∃ d u,
      payloadEmits (handle_dx_format {} emptyState dfA).2.2 = [(d, u)] ∧
      u = (lookupByHash emptyState.registry
        (generate_df_hash (normalize_index_and_columns dfA))).isSome ∧
      payloadEmits
        (handle_dx_format {} (handle_dx_format {} emptyState dfA).2.1 dfA).2.2 =
        [(d, true)]) ∧
    (∃ d u,
      payloadEmits (handle_dataresource_format {} emptyState dfA).2.2 = [(d, u)] ∧
      u = (lookupByHash emptyState.registry
        (generate_df_hash (normalize_index_and_columns dfA))).isSome ∧
      payloadEmits
        (handle_dataresource_format {}
          (handle_dataresource_format {} emptyState dfA).2.1 dfA).2.2 =
        [(d, true)]) :=
  claim_C1 {} emptyState dfA rfl

/-- C2: on the update path (fingerprint already registered) the table store
is left unchanged and no persistence write is emitted, for both handlers. -/
theorem claim_C2 (s : Settings) (st : LinkState) (df : Df)
    (hdl : s.ENABLE_DATALINK = true)
    (hknown : (lookupByHash st.registry
      (generate_df_hash (normalize_index_and_columns df))).isSome = true) :
    (handle_dx_format s st df).2.1.store = st.store ∧
    persistEvents (handle_dx_format s st df).2.2 = [] ∧
    (handle_dataresource_format s st df).2.1.store = st.store ∧
    persistEvents (handle_dataresource_format s st df).2.2 = [] := by
  simp only [normalize_index_and_columns] at hknown
  obtain ⟨e, hl⟩ := Option.isSome_iff_exists.mp hknown
  refine ⟨?_, ?_, ?_, ?_⟩
  · rw [handle_dx_format_store s st df hdl, hl]
  · rw [handle_dx_format_events s st df hdl, hl]
    simp [persistEvents]
  · rw [handle_dataresource_format_store s st df hdl, hl]
  · rw [handle_dataresource_format_events s st df hdl, hl]
    simp [persistEvents]

/-- C2 witness: re-rendering `dfA` against a state that already registered
its fingerprint leaves the store untouched and emits no persistence write. -/
theorem claim_C2_witness :
    (handle_dx_format {} knownState dfA).2.1.store = knownState.store ∧
    persistEvents (handle_dx_format {} knownState dfA).2.2 = [] ∧
    (handle_dataresource_format {} knownState dfA).2.1.store = knownState.store ∧
    persistEvents (handle_dataresource_format {} knownState dfA).2.2 = [] :=
  claim_C2 {} knownState dfA rfl (by rfl)

/-- C3: on a first-time render (unknown fingerprint) the sampled payload is
emitted strictly before the full dataset is persisted, for both handlers. -/
theorem claim_C3 (s : Settings) (st : LinkState) (df : Df)
    (hdl : s.ENABLE_DATALINK = true)
    (hnew : lookupByHash st.registry
      (generate_df_hash (normalize_index_and_columns df)) = none) :
    (∃ i j, i < j ∧
      (∃ d u, (handle_dx_format s st df).2.2.get? i = some (Event.emitPayload d u)) ∧
      (∃ t, (handle_dx_format s st df).2.2.get? j = some (Event.persist t))) ∧
    (∃ i j, i < j ∧
      (∃ d u,
        (handle_dataresource_format s st df).2.2.get? i = some (Event.emitPayload d u)) ∧
      (∃ t, (handle_dataresource_format s st df).2.2.get? j = some (Event.persist t))) := by
  simp only [normalize_index_and_columns] at hnew
  constructor
  · refine ⟨0, 2, by omega, ?_, ?_⟩
    · rw [handle_dx_format_events s st df hdl, hnew]
      exact ⟨_, _, rfl⟩
    · rw [handle_dx_format_events s st df hdl, hnew]
      exact ⟨_, rfl⟩
  · refine ⟨0, 2, by omega, ?_, ?_⟩
    · rw [handle_dataresource_format_events s st df hdl, hnew]
      exact ⟨_, _, rfl⟩
    · rw [handle_dataresource_format_events s st df hdl, hnew]
      exact ⟨_, rfl⟩

/-- C3 witness: a first render of `dfA` from the empty state emits the
payload before the persistence write in both handlers. -/
theorem claim_C3_witness :
    (∃ i j, i < j ∧
      (∃ d u,
        (handle_dx_format {} emptyState dfA).2.2.get? i = some (Event.emitPayload d u)) ∧
      (∃ t, (handle_dx_format {} emptyState dfA).2.2.get? j = some (Event.persist t))) ∧
    (∃ i j, i < j ∧
      (∃ d u,
        (handle_dataresource_format {} emptyState dfA).2.2.get? i =
          some (Event.emitPayload d u)) ∧
      (∃ t,
        (handle_dataresource_format {} emptyState dfA).2.2.get? j =
          some (Event.persist t))) :=
  claim_C3 {} emptyState dfA rfl rfl

theorem add_view_preserves_head (m : DEXMetadata) (b : Bool) (v : DEXView)
    (h : m.views ≠ []) : (m.add_view b v).views.head? = m.views.head? := by
  cases hv : m.views with
  | nil => exact absurd hv h
  | cons a l => simp [DEXMetadata.add_view, hv]

theorem foldl_add_view_head (cs : List (Bool × DEXView)) :
    ∀ m : DEXMetadata, m.views.head?.map DEXView.is_default = some true →
      ((cs.foldl (fun a c => a.add_view c.1 c.2) m).views.head?.map DEXView.is_default) =
        some true := by
  induction cs with
  | nil => intro m h; simpa using h
  | cons c cs ih =>
      intro m h
      have hne : m.views ≠ [] := by
        intro hv; rw [hv] at h; simp at h
      have : (m.add_view c.1 c.2).views.head?.map DEXView.is_default = some true := by
        rw [add_view_preserves_head m c.1 c.2 hne]; exact h
      simpa using ih (m.add_view c.1 c.2) this

/-- C9: when the views list is empty, `add_view` marks the new view as the
default even if the caller passed `is_default := false`; consequently after
any nonempty sequence of `add_view` calls starting from an empty views list,
the first view in the list is a default view. -/
theorem claim_C9 (m : DEXMetadata) (b : Bool) (v : DEXView)
    (calls : List (Bool × DEXView)) (h : m.views = []) :
    ((m.add_view b v).views.head?.map DEXView.is_default = some true) ∧
    ((((b, v) :: calls).foldl (fun a c => a.add_view c.1 c.2) m).views.head?.map
        DEXView.is_default = some true) := by
  have hfirst : (m.add_view b v).views.head?.map DEXView.is_default = some true := by
    simp [DEXMetadata.add_view, h]
  refine ⟨hfirst, ?_⟩
  simpa using foldl_add_view_head calls (m.add_view b v) hfirst

/-- C9 witness: adding a view with `is_default := false` to an empty
metadata object, then another, leaves the first view marked as default. -/
theorem claim_C9_witness :
    ((DEXMetadata.add_view {} false {}).views.head?.map DEXView.is_default = some true) ∧
    ((((false, {}) :: [(false, {})]).foldl
        (fun a c => DEXMetadata.add_view a c.1 c.2) {}).views.head?.map
        DEXView.is_default = some true) :=
  claim_C9 {} false {} [(false, {})] rfl

theorem handle_dx_format_emits (s : Settings) (st : LinkState) (df : Df) :
    payloadEmits (handle_dx_format s st df).2.2 ≠ [] := by
  by_cases hdl : s.ENABLE_DATALINK = true
  · rw [handle_dx_format_events s st df hdl]
    cases (lookupByHash st.registry (generate_df_hash df)).isSome <;>
      simp [payloadEmits]
  · have hoff : s.ENABLE_DATALINK = false := by
      cases hv : s.ENABLE_DATALINK
      · rfl
      · exact absurd hv hdl
    simp [handle_dx_format, hoff, format_dx, payloadEmits, normalize_index_and_columns]

theorem handle_dataresource_format_emits (s : Settings) (st : LinkState) (df : Df) :
    payloadEmits (handle_dataresource_format s st df).2.2 ≠ [] := by
  by_cases hdl : s.ENABLE_DATALINK = true
  · rw [handle_dataresource_format_events s st df hdl]
    cases (lookupByHash st.registry (generate_df_hash df)).isSome <;>
      simp [payloadEmits]
  · have hoff : s.ENABLE_DATALINK = false := by
      cases hv : s.ENABLE_DATALINK
      · rfl
      · exact absurd hv hdl
    simp [handle_dataresource_format, hoff, format_dataresource, payloadEmits,
      normalize_index_and_columns]

/-- C10: the custom display formatters never return a payload through the
formatter protocol — a renderable object yields the empty pair while the
payload is delivered by side effect (a display emission occurs), and any
other object yields exactly the default formatter's result with no side
effect. -/
theorem claim_C10 (s : Settings)
    (dfmt : PyObj → List (String × String) × List (String × String))
    (st : LinkState) (obj : PyObj) :
    (obj.ty ∈ s.RENDERABLE_OBJECTS →
      (DXDisplayFormatter.format s dfmt st obj).1 = ([], []) ∧
      payloadEmits (DXDisplayFormatter.format s dfmt st obj).2.2 ≠ [] ∧
      (DXDataResourceDisplayFormatter.format s dfmt st obj).1 = ([], []) ∧
      payloadEmits (DXDataResourceDisplayFormatter.format s dfmt st obj).2.2 ≠ []) ∧
    (obj.ty ∉ s.RENDERABLE_OBJECTS →
      (DXDisplayFormatter.format s dfmt st obj).1 = dfmt obj ∧
      (DXDisplayFormatter.format s dfmt st obj).2.2 = [] ∧
      (DXDataResourceDisplayFormatter.format s dfmt st obj).1 = dfmt obj ∧
      (DXDataResourceDisplayFormatter.format s dfmt st obj).2.2 = []) := by
  constructor
  · intro h
    refine ⟨?_, ?_, ?_, ?_⟩ <;>
      simp [DXDisplayFormatter.format, DXDataResourceDisplayFormatter.format, h,
        handle_dx_format_emits, handle_dataresource_format_emits]
  · intro h
    refine ⟨?_, ?_, ?_, ?_⟩ <;>
      simp [DXDisplayFormatter.format, DXDataResourceDisplayFormatter.format, h]

/-- C10 witness: a dataframe-tagged object returns the empty pair and emits;
an int-tagged object returns the default formatter's result unchanged. -/
theorem claim_C10_witness :
    ((DXDisplayFormatter.format {} plainFormat emptyState ⟨"DataFrame", dfA⟩).1 = ([], []) ∧
      payloadEmits (DXDisplayFormatter.format {} plainFormat emptyState
        ⟨"DataFrame", dfA⟩).2.2 ≠ [] ∧
      (DXDataResourceDisplayFormatter.format {} plainFormat emptyState
        ⟨"DataFrame", dfA⟩).1 = ([], []) ∧
      payloadEmits (DXDataResourceDisplayFormatter.format {} plainFormat emptyState
        ⟨"DataFrame", dfA⟩).2.2 ≠ []) ∧
    ((DXDisplayFormatter.format {} plainFormat emptyState ⟨"int", dfA⟩).1 =
        plainFormat ⟨"int", dfA⟩ ∧
      (DXDisplayFormatter.format {} plainFormat emptyState ⟨"int", dfA⟩).2.2 = [] ∧
      (DXDataResourceDisplayFormatter.format {} plainFormat emptyState ⟨"int", dfA⟩).1 =
        plainFormat ⟨"int", dfA⟩ ∧
      (DXDataResourceDisplayFormatter.format {} plainFormat emptyState
        ⟨"int", dfA⟩).2.2 = []) :=
  ⟨(claim_C10 {} plainFormat emptyState ⟨"DataFrame", dfA⟩).1 (by simp),
    (claim_C10 {} plainFormat emptyState ⟨"int", dfA⟩).2 (by simp)⟩

theorem digitVal_digitChar : ∀ d < 10, digitVal (Nat.digitChar d) = d := by decide

theorem digitsVal_toDigitsCore (fuel : Nat) :
    ∀ (n : Nat) (ds : List Char), n < 10 ^ fuel →
      digitsVal (Nat.toDigitsCore 10 fuel n ds) =
        List.foldl (fun a c => 10 * a + digitVal c) n ds := by
  induction fuel with
  | zero =>
      intro n ds h
      simp only [pow_zero, Nat.lt_one_iff] at h
      subst h
      rfl
  | succ f ih =>
      intro n ds h
      have h10 : (0 : Nat) < 10 := by norm_num
      rw [Nat.toDigitsCore]
      by_cases h0 : n / 10 = 0
      · have hn : n < 10 := (Nat.div_eq_zero_iff h10).mp h0
        simp only [h0, if_true, digitsVal, List.foldl]
        rw [digitVal_digitChar _ (Nat.mod_lt _ h10)]
        rw [Nat.mul_zero, Nat.zero_add, Nat.mod_eq_of_lt hn]
      · simp only [h0, if_false]
        have hdiv : n / 10 < 10 ^ f := by
          rw [Nat.div_lt_iff_lt_mul h10]
          calc n < 10 ^ (f + 1) := h
            _ = 10 ^ f * 10 := by ring
        rw [ih (n / 10) _ hdiv]
        simp only [List.foldl]
        rw [digitVal_digitChar _ (Nat.mod_lt _ h10)]
        rw [Nat.div_add_mod]

theorem digitsVal_repr (n : Nat) : digitsVal (Nat.repr n).data = n := by
  have hlt : n < 10 ^ (n + 1) :=
    lt_of_lt_of_le (Nat.lt_pow_self (by norm_num) n)
      (Nat.pow_le_pow_right (by norm_num) (Nat.le_succ n))
  show digitsVal (Nat.toDigitsCore 10 (n + 1) n []) = n
  rw [digitsVal_toDigitsCore (n + 1) n [] hlt]
  rfl

theorem repr_injective {m n : Nat} (h : Nat.repr m = Nat.repr n) : m = n := by
  have hd : digitsVal (Nat.repr m).data = digitsVal (Nat.repr n).data := by rw [h]
  rwa [digitsVal_repr, digitsVal_repr] at hd

theorem suffixedName_injective (name : String) {j k : Nat}
    (h : suffixedName name j = suffixedName name k) : j = k := by
  unfold suffixedName at h
  have hd := congrArg String.data h
  simp only [String.data_append, List.append_assoc] at hd
  have hr : (Nat.repr j).data = (Nat.repr k).data :=
    List.append_cancel_left (List.append_cancel_left hd)
  exact repr_injective (by
    have : Nat.repr j = Nat.repr k := by
      cases hj : Nat.repr j with
      | mk dj =>
          cases hk : Nat.repr k with
          | mk dk =>
              rw [hj, hk] at hr
              simpa using congrArg String.mk hr
    exact this)

theorem exists_free_suffix (names : List String) (name : String) :
    ∃ k, 1 ≤ k ∧ k ≤ names.length + 1 ∧ suffixedName name k ∉ names := by
  by_contra hall
  push_neg at hall
  have hmem : ∀ i ∈ Finset.range (names.length + 1), suffixedName name (i + 1) ∈ names := by
    intro i hi
    have hi1 : 1 ≤ i + 1 := Nat.le_add_left 1 i
    have hi2 : i + 1 ≤ names.length + 1 :=
      Nat.succ_le_succ (Nat.lt_succ_iff.mp (Finset.mem_range.mp hi))
    exact hall (i + 1) hi1 hi2
  have hinj : Function.Injective (fun i : Nat => suffixedName name (i + 1)) := by
    intro a b hab
    have := suffixedName_injective name hab
    omega
  have hsub : (Finset.range (names.length + 1)).image
      (fun i => suffixedName name (i + 1)) ⊆ names.toFinset := by
    intro x hx
    obtain ⟨i, hi, rfl⟩ := Finset.mem_image.mp hx
    exact List.mem_toFinset.mpr (hmem i hi)
  have hcard := Finset.card_le_card hsub
  rw [Finset.card_image_of_injective _ hinj, Finset.card_range] at hcard
  have := List.toFinset_card_le names
  omega

theorem findSuffix_spec (names : List String) (name : String) :
    ∀ (fuel k : Nat),
      (∃ j, k ≤ j ∧ j ≤ k + fuel ∧ suffixedName name j ∉ names) →
      suffixedName name (findSuffix names name fuel k) ∉ names ∧
      k ≤ findSuffix names name fuel k ∧
      ∀ j, k ≤ j → j < findSuffix names name fuel k → suffixedName name j ∈ names := by
  intro fuel
  induction fuel with
  | zero =>
      intro k hex
      obtain ⟨j, hkj, hjk, hfree⟩ := hex
      have hjk2 : j = k := by omega
      rw [findSuffix]
      exact ⟨hjk2 ▸ hfree, Nat.le_refl _,
        fun i h1 h2 => absurd (Nat.lt_of_le_of_lt h1 h2) (Nat.lt_irrefl k)⟩
  | succ f ih =>
      intro k hex
      rw [findSuffix]
      by_cases hk : suffixedName name k ∈ names
      · rw [if_pos hk]
        have hex1 : ∃ j, k + 1 ≤ j ∧ j ≤ (k + 1) + f ∧ suffixedName name j ∉ names := by
          obtain ⟨j, hkj, hjk, hfree⟩ := hex
          have hne : j ≠ k := fun hjek => hfree (hjek ▸ hk)
          exact ⟨j, by omega, by omega, hfree⟩
        obtain ⟨hfree, hle, hmin⟩ := ih (k + 1) hex1
        refine ⟨hfree, by omega, ?_⟩
        intro j h1 h2
        rcases Nat.eq_or_lt_of_le h1 with heq | hlt
        · exact heq ▸ hk
        · exact hmin j hlt h2
      · rw [if_neg hk]
        exact ⟨hk, Nat.le_refl k, fun i h1 h2 => absurd (Nat.lt_of_le_of_lt h1 h2)
          (Nat.lt_irrefl k)⟩

/-- The result of `check_variable_name` on a taken name: the smallest free
positive suffix. -/
theorem check_variable_name_of_mem (variable_name : String) (names : List String)
    (h : variable_name ∈ names) :
    ∃ k, 1 ≤ k ∧
      check_variable_name variable_name names = suffixedName variable_name k ∧
      suffixedName variable_name k ∉ names ∧
      ∀ j, 1 ≤ j → j < k → suffixedName variable_name j ∈ names := by
  obtain ⟨j, hj1, hj2, hjfree⟩ := exists_free_suffix names variable_name
  have hex : ∃ j, 1 ≤ j ∧ j ≤ 1 + (names.length + 1) ∧
      suffixedName variable_name j ∉ names := ⟨j, hj1, by omega, hjfree⟩
  obtain ⟨hfree, hle, hmin⟩ := findSuffix_spec names variable_name (names.length + 1) 1 hex
  refine ⟨findSuffix names variable_name (names.length + 1) 1, hle, ?_, hfree, ?_⟩
  · simp [check_variable_name, h]
  · exact fun j h1 h2 => hmin j h1 h2

/-- `check_variable_name` never returns a name that is already bound. -/
theorem check_variable_name_free (variable_name : String) (names : List String) :
    check_variable_name variable_name names ∉ names := by
  by_cases h : variable_name ∈ names
  · obtain ⟨k, _, heq, hfree, _⟩ := check_variable_name_of_mem variable_name names h
    rw [heq]; exact hfree
  · rw [check_variable_name, if_neg h]; exact h

theorem lookupData_isSome_not_empty {d : List (String × MsgVal)} {k : String}
    (h : (lookupData d k).isSome) : d.isEmpty = false := by
  cases d with
  | nil => simp [lookupData] at h
  | cons a t => rfl

theorem nsSet_not_mem (user_ns : List (String × Df)) (k : String) (v : Df)
    (hk : k ∉ user_ns.map Prod.fst) : nsSet user_ns k v = user_ns ++ [(k, v)] := by
  unfold nsSet
  rw [if_neg]
  simp only [List.any_eq_true, not_exists, not_and]
  intro p hp
  intro hpk
  exact hk (List.mem_map.mpr ⟨p, hp, by simpa using hpk⟩)

theorem nsLookup_append_left :
    ∀ (user_ns rest : List (String × Df)) (x : String),
      x ∈ user_ns.map Prod.fst → nsLookup (user_ns ++ rest) x = nsLookup user_ns x
  | [], _, x, hx => by simp at hx
  | (a, b) :: t, rest, x, hx => by
      cases hab : (a == x) with
      | true =>
          unfold nsLookup
          rw [List.cons_append]
          simp only [List.find?, hab]
      | false =>
          have hxt : x ∈ t.map Prod.fst := by
            simp only [List.map_cons, List.mem_cons] at hx
            rcases hx with h1 | h2
            · rw [h1] at hab; simp at hab
            · exact h2
          unfold nsLookup
          rw [List.cons_append]
          simp only [List.find?, hab]
          exact nsLookup_append_left t rest x hxt

theorem nsLookup_append_self :
    ∀ (user_ns : List (String × Df)) (k : String) (v : Df),
      k ∉ user_ns.map Prod.fst → nsLookup (user_ns ++ [(k, v)]) k = some v
  | [], k, v, _ => by simp [nsLookup, List.find?]
  | (a, b) :: t, k, v, hk => by
      simp only [List.map_cons, List.mem_cons, not_or] at hk
      have hak : (a == k) = false := beq_eq_false_iff_ne.mpr (fun h => hk.1 h.symm)
      unfold nsLookup
      rw [List.cons_append]
      simp only [List.find?, hak]
      exact nsLookup_append_self t k v hk.2

/-- Shape of a successful `assignment_core` run: the namespace gains the
resampled frame under the collision-free name, and the success log names it. -/
theorem assignment_core_ok (st : LinkState) (user_ns : List (String × Df))
    (data : List (String × MsgVal)) (r : List (String × Df) × List (String × String))
    (vn : String) (hvn : lookupData data "variable_name" = some (MsgVal.s vn))
    (h : assignment_core st user_ns data = Except.ok r) :
    ∃ df,
      r = (nsSet user_ns (check_variable_name vn (user_ns.map Prod.fst)) df,
        comm_log (assignLogText df.rows.length
          (check_variable_name vn (user_ns.map Prod.fst)))) := by
  unfold assignment_core at h
  split at h
  · exact absurd h (by simp)
  · split at h
    · exact absurd h (by simp)
    · split at h
      · split at h
        · exact absurd h (by simp)
        · rename_i sampled heq
          split at h
          · rename_i vn2 hvn2
            rw [hvn] at hvn2
            cases hvn2
            cases h
            exact ⟨sampled, rfl⟩
          · exact absurd h (by simp)
      · exact absurd h (by simp)
    · exact absurd h (by simp)
  · exact absurd h (by simp)

/-- `handle_assignment_comm` on a message carrying both required keys runs
`assignment_core`. -/
theorem handle_assignment_comm_keyed (st : LinkState) (user_ns : List (String × Df))
    (msg : CommMsg)
    (hdid : (lookupData (dataOf msg) "display_id").isSome)
    (hvn : (lookupData (dataOf msg) "variable_name").isSome) :
    handle_assignment_comm st user_ns msg =
      (match assignment_core st user_ns (dataOf msg) with
        | Except.ok r =>
            { user_ns := r.1
              sent := [comm_log ("assignment comm received: " ++ msgRepr msg)] ++ [r.2]
              raised := none }
        | Except.error e =>
            { user_ns := user_ns
              sent := [comm_log ("assignment comm received: " ++ msgRepr msg)]
              raised := some e }) := by
  unfold handle_assignment_comm
  rw [if_neg (by simp [lookupData_isSome_not_empty hdid])]
  rw [if_pos (by simp [hdid, hvn])]

/-- C4: assignment name collision resolution — an unused requested name is
bound as-is; a used name gets the smallest positive numeric suffix not yet
bound; and neither `check_variable_name` nor the assignment handler ever
overwrites an existing binding. -/
theorem claim_C4 (variable_name : String) (user_ns : List (String × Df))
    (st : LinkState) (msg : CommMsg) (v : Df) :
    (variable_name ∉ user_ns.map Prod.fst →
      check_variable_name variable_name (user_ns.map Prod.fst) = variable_name) ∧
    (variable_name ∈ user_ns.map Prod.fst →
      ∃ k, 1 ≤ k ∧
        check_variable_name variable_name (user_ns.map Prod.fst) =
          suffixedName variable_name k ∧
        suffixedName variable_name k ∉ user_ns.map Prod.fst ∧
        ∀ j, 1 ≤ j → j < k → suffixedName variable_name j ∈ user_ns.map Prod.fst) ∧
    (∀ x, x ∈ user_ns.map Prod.fst →
      nsLookup (nsSet user_ns
          (check_variable_name variable_name (user_ns.map Prod.fst)) v) x =
        nsLookup user_ns x) ∧
    (∀ x, x ∈ user_ns.map Prod.fst →
      nsLookup (handle_assignment_comm st user_ns msg).user_ns x =
        nsLookup user_ns x) := by
  refine ⟨?_, ?_, ?_, ?_⟩
  · intro h
    rw [check_variable_name, if_neg h]
  · exact check_variable_name_of_mem variable_name (user_ns.map Prod.fst)
  · intro x hx
    rw [nsSet_not_mem _ _ _ (check_variable_name_free _ _)]
    exact nsLookup_append_left user_ns _ x hx
  · intro x hx
    by_cases hne : (dataOf msg).isEmpty = true
    · unfold handle_assignment_comm
      rw [if_pos hne]
    · by_cases hkeys : ((lookupData (dataOf msg) "display_id").isSome ∧
          (lookupData (dataOf msg) "variable_name").isSome)
      · rw [handle_assignment_comm_keyed st user_ns msg hkeys.1 hkeys.2]
        cases hc : assignment_core st user_ns (dataOf msg) with
        | error e => rfl
        | ok r =>
            obtain ⟨vn2, hvn2⟩ : ∃ vn2, lookupData (dataOf msg) "variable_name" =
                some (MsgVal.s vn2) := by
              revert hc
              unfold assignment_core
              split <;> intro hc
              · exact absurd hc (by simp)
              · split at hc
                · exact absurd hc (by simp)
                · split at hc
                  · split at hc
                    · exact absurd hc (by simp)
                    · split at hc
                      · rename_i vn2 hvn2
                        exact ⟨vn2, hvn2⟩
                      · exact absurd hc (by simp)
                  · exact absurd hc (by simp)
                · exact absurd hc (by simp)
              · exact absurd hc (by simp)
            obtain ⟨df, hdf⟩ := assignment_core_ok st user_ns (dataOf msg) r vn2 hvn2 hc
            simp only [hdf]
            rw [nsSet_not_mem _ _ _ (check_variable_name_free _ _)]
            exact nsLookup_append_left user_ns _ x hx
      · unfold handle_assignment_comm
        rw [if_neg hne, if_neg (by
          rcases not_and_or.mp hkeys with h | h <;> simp [Option.not_isSome_iff_eq_none.mp
            (by simpa using h)])]

/-- C4 witness: a namespace holding `x` and `x_1` resolves the requested
name `x` to `x_2`, and the existing binding of `x` is untouched. -/
theorem claim_C4_witness :
    ("x" ∈ nsW.map Prod.fst) ∧
    (∃ k, 1 ≤ k ∧
      check_variable_name "x" (nsW.map Prod.fst) = suffixedName "x" k ∧
      suffixedName "x" k ∉ nsW.map Prod.fst ∧
      ∀ j, 1 ≤ j → j < k → suffixedName "x" j ∈ nsW.map Prod.fst) ∧
    nsLookup (nsSet nsW (check_variable_name "x" (nsW.map Prod.fst)) dfA) "x" =
      nsLookup nsW "x" :=
  ⟨by decide, (claim_C4 "x" nsW emptyState ⟨none⟩ dfA).2.1 (by decide),
    (claim_C4 "x" nsW emptyState ⟨none⟩ dfA).2.2.1 "x" (by decide)⟩

/-- C5: an empty filter list compiles to a query with only a row limit and
to the always-true predicate, while a non-empty clause list produces a
conjunctive WHERE predicate. -/
theorem claim_C5 (n : Nat) (c : Clause) (cs : List Clause) (cols : List String)
    (row : List Int) :
    build_sql_filter [] n = "SELECT * FROM {table_name} LIMIT " ++ Nat.repr n ∧
    compilePredicate cols [] row = true ∧
    build_sql_filter (c :: cs) n =
      "SELECT * FROM {table_name} WHERE " ++ to_sql_query (c :: cs) ++ " LIMIT " ++
        Nat.repr n ∧
    compilePredicate cols (c :: cs) row =
      (evalClause cols row c && compilePredicate cols cs row) := by
  refine ⟨rfl, rfl, ?_, ?_⟩
  · simp [build_sql_filter]
  · simp [compilePredicate]

/-- C6: when handling a resample message raises, the comm callback catches
the exception (state is untouched, nothing propagates) and sends an error
envelope carrying status "error", the error string and a traceback. -/
theorem claim_C6 (st : LinkState) (msg : CommMsg) (e : PyErr)
    (herr : handle_resample_comm st msg = Except.error e) :
    (resampler_recv st msg).1 = st ∧
    (resampler_recv st msg).2.1 = [] ∧
    (resampler_recv st msg).2.2 =
      [[("status", "error"), ("source", "resampler"), ("error", errString e),
        ("traceback", tracebackOf e)]] := by
  refine ⟨?_, ?_, ?_⟩ <;> simp [resampler_recv, herr]

/-- C6 witness: a resample request for an unregistered display id raises
`UnknownDisplayError`, which is converted into the error envelope. -/
theorem claim_C6_witness :
    (resampler_recv emptyState msgU).1 = emptyState ∧
    (resampler_recv emptyState msgU).2.1 = [] ∧
    (resampler_recv emptyState msgU).2.2 =
      [[("status", "error"), ("source", "resampler"),
        ("error", errString (PyErr.unknownDisplay 5)),
        ("traceback", tracebackOf (PyErr.unknownDisplay 5))]] :=
  claim_C6 emptyState msgU (PyErr.unknownDisplay 5) rfl

/-- C7 counterexample: a successfully handled assignment request (no
exception, binding created) during which every envelope sent over the comm
is a `{"msg": ...}` log — none carries a `status` key, so no
`{status:"ok", variable_name: ...}` envelope is reported. -/
theorem claim_C7_counterexample :
    (handle_assignment_comm stC [] msgC).raised = none ∧
    nsLookup (handle_assignment_comm stC [] msgC).user_ns "x" = some dfB ∧
    ∀ env ∈ (handle_assignment_comm stC [] msgC).sent, ∀ p ∈ env, p.1 ≠ "status" := by
  decide

/-- C7 (amended): a successfully handled assignment request sends exactly
two `{"msg": ...}` log envelopes — the receipt log and a log embedding the
possibly-suffixed name actually bound — and no envelope with a `status` key
(in particular no `{status:"ok", variable_name: ...}`); the resampled frame
is bound under that name. -/
theorem claim_C7 (st : LinkState) (user_ns : List (String × Df)) (msg : CommMsg)
    (did : Nat) (vn : String)
    (hdid : lookupData (dataOf msg) "display_id" = some (MsgVal.n did))
    (hvn : lookupData (dataOf msg) "variable_name" = some (MsgVal.s vn))
    (hok : (handle_assignment_comm st user_ns msg).raised = none) :
    ∃ df,
      (handle_assignment_comm st user_ns msg).sent =
        [comm_log ("assignment comm received: " ++ msgRepr msg),
          comm_log (assignLogText df.rows.length
            (check_variable_name vn (user_ns.map Prod.fst)))] ∧
      nsLookup (handle_assignment_comm st user_ns msg).user_ns
        (check_variable_name vn (user_ns.map Prod.fst)) = some df ∧
      ∀ env ∈ (handle_assignment_comm st user_ns msg).sent, ∀ p ∈ env, p.1 = "msg" := by
  have hkey := handle_assignment_comm_keyed st user_ns msg (by simp [hdid]) (by simp [hvn])
  cases hc : assignment_core st user_ns (dataOf msg) with
  | error e =>
      rw [hkey, hc] at hok
      exact absurd hok (by simp)
  | ok r =>
      obtain ⟨df, hdf⟩ := assignment_core_ok st user_ns (dataOf msg) r vn hvn hc
      refine ⟨df, ?_, ?_, ?_⟩
      · rw [hkey, hc, hdf]
        rfl
      · rw [hkey, hc, hdf]
        show nsLookup (nsSet user_ns (check_variable_name vn (user_ns.map Prod.fst)) df)
          (check_variable_name vn (user_ns.map Prod.fst)) = some df
        rw [nsSet_not_mem _ _ _ (check_variable_name_free _ _)]
        exact nsLookup_append_self user_ns _ df (check_variable_name_free _ _)
      · rw [hkey, hc, hdf]
        intro env henv p hp
        have henv2 : env = comm_log ("assignment comm received: " ++ msgRepr msg) ∨
            env = comm_log (assignLogText df.rows.length
              (check_variable_name vn (user_ns.map Prod.fst))) := by
          simpa using henv
        rcases henv2 with h1 | h1 <;>
          · rw [h1] at hp
            simp only [comm_log, List.mem_singleton] at hp
            rw [hp]

/-- C7 (amended) witness: the concrete successful assignment request binds
`x` and sends only `{"msg": ...}` envelopes, the last naming `x`. -/
theorem claim_C7_witness :
    lookupData (dataOf msgC) "display_id" = some (MsgVal.n 5) ∧
    lookupData (dataOf msgC) "variable_name" = some (MsgVal.s "x") ∧
    (handle_assignment_comm stC [] msgC).raised = none ∧
    ∃ df,
      (handle_assignment_comm stC [] msgC).sent =
        [comm_log ("assignment comm received: " ++ msgRepr msgC),
          comm_log (assignLogText df.rows.length
            (check_variable_name "x" (([] : List (String × Df)).map Prod.fst)))] ∧
      nsLookup (handle_assignment_comm stC [] msgC).user_ns
        (check_variable_name "x" (([] : List (String × Df)).map Prod.fst)) = some df ∧
      ∀ env ∈ (handle_assignment_comm stC [] msgC).sent, ∀ p ∈ env, p.1 = "msg" :=
  ⟨rfl, rfl, rfl, claim_C7 stC [] msgC 5 "x" rfl rfl rfl⟩

/-- C8: messages with missing or empty `content.data`, and messages lacking
a required key (`display_id`/`filters` for resample, `display_id`/
`variable_name` for assignment), are inert: the handlers return normally
without touching the store or the registry, without emitting, without
modifying the user namespace, and without raising; the assignment handler's
outcome does not even depend on the engine state. -/
theorem claim_C8 (st st2 : LinkState) (user_ns : List (String × Df)) (msg : CommMsg) :
    ((dataOf msg).isEmpty = true ∨ lookupData (dataOf msg) "display_id" = none ∨
        lookupData (dataOf msg) "filters" = none →
      handle_resample_comm st msg = Except.ok (st, [])) ∧
    ((dataOf msg).isEmpty = true ∨ lookupData (dataOf msg) "display_id" = none ∨
        lookupData (dataOf msg) "variable_name" = none →
      (handle_assignment_comm st user_ns msg).user_ns = user_ns ∧
      (handle_assignment_comm st user_ns msg).raised = none ∧
      (handle_assignment_comm st user_ns msg).sent =
        [comm_log ("assignment comm received: " ++ msgRepr msg)] ∧
      handle_assignment_comm st user_ns msg = handle_assignment_comm st2 user_ns msg) := by
  constructor
  · intro h
    rcases h with h | h | h
    · simp [handle_resample_comm, h]
    · unfold handle_resample_comm
      by_cases he : (dataOf msg).isEmpty = true <;> simp [he, h]
    · unfold handle_resample_comm
      by_cases he : (dataOf msg).isEmpty = true <;> simp [he, h]
  · intro h
    rcases h with h | h | h
    · unfold handle_assignment_comm
      rw [if_pos h, if_pos h]
      exact ⟨rfl, rfl, rfl, rfl⟩
    · unfold handle_assignment_comm
      by_cases he : (dataOf msg).isEmpty = true
      · rw [if_pos he, if_pos he]; exact ⟨rfl, rfl, rfl, rfl⟩
      · rw [if_neg he, if_neg he, if_neg (by simp [h]), if_neg (by simp [h])]
        exact ⟨rfl, rfl, rfl, rfl⟩
    · unfold handle_assignment_comm
      by_cases he : (dataOf msg).isEmpty = true
      · rw [if_pos he, if_pos he]; exact ⟨rfl, rfl, rfl, rfl⟩
      · rw [if_neg he, if_neg he, if_neg (by simp [h]), if_neg (by simp [h])]
        exact ⟨rfl, rfl, rfl, rfl⟩

/-- C8 witness: a message with no `content.data` is inert for both handlers,
independently of the engine state. -/
theorem claim_C8_witness :
    handle_resample_comm stC ⟨none⟩ = Except.ok (stC, []) ∧
    ((handle_assignment_comm stC nsW ⟨none⟩).user_ns = nsW ∧
      (handle_assignment_comm stC nsW ⟨none⟩).raised = none ∧
      (handle_assignment_comm stC nsW ⟨none⟩).sent =
        [comm_log ("assignment comm received: " ++ msgRepr ⟨none⟩)] ∧
      handle_assignment_comm stC nsW ⟨none⟩ = handle_assignment_comm emptyState nsW ⟨none⟩) :=
  ⟨(claim_C8 stC emptyState nsW ⟨none⟩).1 (Or.inl rfl),
    (claim_C8 stC emptyState nsW ⟨none⟩).2 (Or.inl rfl)⟩

end DxSpec
